import Mathlib

/-!
Shallow embedding of the taskmanagerAPI repository (Express + Mongoose REST
API for tasks, categories and comments, guarded by a JWT auth middleware).

Conventions of the embedding:
- Document-store collections are Lean lists; Mongo ObjectIds are Nat.
- `Model.findOne({...})` becomes `List.find?` with the same filter.
- `doc.save()` becomes replacing the first element with the same id
  (`saveById`); `doc.deleteOne()` / `findOneAndDelete` remove it
  (`removeById`).  Mongoose timestamps are modelled by threading `now`.
- `res.status(s).json(b)` becomes the pair `(s, b)`; `res.json(b)` is
  `(200, b)`.  Validation-error detail arrays are abbreviated to a fixed
  string, since no claim inspects them.
- A JWT is modelled as a record carrying its payload, timestamps and the
  secret it was signed with; `jwtVerify` checks secret and expiry, which is
  exactly what `jsonwebtoken.verify` enforces here.
-/

namespace TM

/-- An Identity record, mirroring the User model (email, hashed password
present only for password accounts, display name, optional githubId). -/
structure User where
  id : Nat
  email : String
  password : Option String
  name : String
  githubId : Option String
deriving Repr, DecidableEq

/-- A Task document, fields per the Task schema used by routes/tasks.js
(title, description, status, priority, dueDate, owning user, timestamps). -/
structure Task where
  id : Nat
  title : String
  description : Option String
  status : Option String
  priority : Option String
  dueDate : Option Nat
  user : Nat
  createdAt : Nat
  updatedAt : Nat
deriving Repr, DecidableEq

/-- A Category document per models/Category.js (name, description, user,
timestamps; unique compound index on user+name). -/
structure Category where
  id : Nat
  name : String
  description : Option String
  user : Nat
  createdAt : Nat
  updatedAt : Nat
deriving Repr, DecidableEq

/-- A Comment document per models/Comment.js (content, task ref, user ref,
timestamps). -/
structure Comment where
  id : Nat
  content : String
  task : Nat
  user : Nat
  createdAt : Nat
  updatedAt : Nat
deriving Repr, DecidableEq

/-- A signed JWT: payload {userId}, iat, exp, and the secret it was signed
with (standing in for the HMAC signature). -/
structure Token where
  userId : Nat
  iat : Nat
  exp : Nat
  secret : String
deriving Repr, DecidableEq

/-- jwt.sign({userId}, secret, {expiresIn}): encodes subject and expiry
window; exp is issuance time plus the window, all in seconds. -/
def jwtSign (userId : Nat) (secret : String) (expiresInSeconds now : Nat) : Token :=
  { userId := userId, iat := now, exp := now + expiresInSeconds, secret := secret }

/-- jwt.verify(token, secret): succeeds with the payload userId iff the
signature matches the secret and the token is not expired. -/
def jwtVerify (t : Token) (secret : String) (now : Nat) : Option Nat :=
  if t.secret = secret ∧ now < t.exp then some t.userId else none

/-- Response bodies the handlers produce.  errBody is {error, details};
msgBody is the bare {error: message} shape used by successful deletes;
authOk is the {message, token, user:{id,email,name}} shape of
signup/login/OAuth-callback responses. -/
inductive RespBody where
  | errBody (error : String) (details : String)
  | msgBody (error : String)
  | taskBody (t : Task)
  | catBody (c : Category)
  | commentBody (c : Comment)
  | authOk (message : String) (token : Token) (id : Nat) (email : String) (name : String)
deriving Repr, DecidableEq

/-- An HTTP response: status code and JSON body. -/
abbrev Resp := Nat × RespBody

/-- Outcome of the auth middleware: a 401 rejection or the resolved user. -/
inductive AuthOutcome where
  | rejected (r : Resp)
  | allowed (u : User)
deriving Repr, DecidableEq

/-- The auth middleware (src/middleware/auth.js, later revision): extract
bearer token, jwt.verify it, User.findOne by decoded userId; 401 on any
failure.  The user store is threaded through and returned so that the
absence of writes is visible in the type. -/
def authGate (header : Option Token) (secret : String) (now : Nat)
    (users : List User) : AuthOutcome × List User :=
  match header with
  | none =>
      (.rejected (401, .errBody "Authentication required" "No token provided"), users)
  | some t =>
      match jwtVerify t secret now with
      | none =>
          (.rejected (401, .errBody "Invalid token" "Token is invalid or expired"), users)
      | some uid =>
          match users.find? (fun u => u.id == uid) with
          | none =>
              (.rejected (401,
                .errBody "User not found"
                  "The user associated with this token no longer exists"), users)
          | some u => (.allowed u, users)

/-- Wiring of a protected route: the auth middleware runs first; the handler
(over some resource state σ) runs only when it calls next(). -/
def protectedRoute {σ : Type} (handler : User → σ → Resp × σ)
    (header : Option Token) (secret : String) (now : Nat)
    (users : List User) (s : σ) : Resp × List User × σ :=
  match authGate header secret now users with
  | (.rejected r, users2) => (r, users2, s)
  | (.allowed u, users2) =>
      let hs := handler u s
      (hs.1, users2, hs.2)

/-- A JSON value appearing in a request body (string or number). -/
inductive BodyVal where
  | vstr (s : String)
  | vnum (n : Nat)
deriving Repr, DecidableEq

/-- A JSON request body as a list of key/value pairs (Object.keys order). -/
abbrev ReqBody := List (String × BodyVal)

/-- Whitespace as the trim sanitizer sees it. -/
def isWsChar (c : Char) : Bool := c == ' ' || c == '\t' || c == '\n' || c == '\r'

/-- Model of the trim sanitizer (String.prototype.trim): drop leading and
trailing whitespace.  Stated over the character list so that it reduces by
computation. -/
def trimStr (s : String) : String :=
  ⟨((s.data.dropWhile isWsChar).reverse.dropWhile isWsChar).reverse⟩

/-- An optional express-validator check: passes when the key is absent,
otherwise applies the predicate to its value. -/
def fieldOk (b : ReqBody) (k : String) (p : BodyVal → Bool) : Bool :=
  match b.find? (fun kv => kv.1 == k) with
  | none => true
  | some kv => p kv.2

/-- Lift a string predicate to a BodyVal predicate (non-strings fail). -/
def strPred (p : String → Bool) : BodyVal → Bool
  | .vstr s => p s
  | .vnum _ => false

/-- Allowed task status values. -/
def taskStatusVals : List String := ["pending", "in-progress", "completed"]

/-- Allowed task priority values. -/
def taskPriorityVals : List String := ["low", "medium", "high"]

/-- Validator chain of PUT /api/tasks/:id: title optional trim notEmpty,
status/priority optional isIn, dueDate optional ISO8601 (modelled as: the
value is already a parsed date number). -/
def validTaskUpdate (b : ReqBody) : Bool :=
  fieldOk b "title" (strPred (fun s => !(trimStr s == ""))) &&
  fieldOk b "status" (strPred (fun s => taskStatusVals.contains s)) &&
  fieldOk b "priority" (strPred (fun s => taskPriorityVals.contains s)) &&
  fieldOk b "dueDate" (fun v => match v with | .vnum _ => true | .vstr _ => false)

/-- Assignment of one body key onto a task document (task[key] = value):
schema paths are set (mongoose casts; the title sanitizer has trimmed the
value), non-schema keys are dropped at save by strict mode. -/
def Task.setField (t : Task) (k : String) (v : BodyVal) : Task :=
  if k == "title" then match v with | .vstr s => { t with title := trimStr s } | _ => t
  else if k == "description" then match v with | .vstr s => { t with description := some s } | _ => t
  else if k == "status" then match v with | .vstr s => { t with status := some s } | _ => t
  else if k == "priority" then match v with | .vstr s => { t with priority := some s } | _ => t
  else if k == "dueDate" then match v with | .vnum n => { t with dueDate := some n } | _ => t
  else if k == "user" then match v with | .vnum n => { t with user := n } | _ => t
  else t

/-- Object.keys(req.body).forEach(key => task[key] = req.body[key]). -/
def applyBody (t : Task) (b : ReqBody) : Task :=
  b.foldl (fun acc kv => acc.setField kv.1 kv.2) t

/-- doc.save(): replace the first stored document with the same id. -/
def saveById {α : Type} (f : α → Nat) : List α → α → List α
  | [], _ => []
  | y :: ys, x => if f y = f x then x :: ys else y :: saveById f ys x

/-- doc.deleteOne() / findOneAndDelete: remove the first document with the
given id. -/
def removeById {α : Type} (f : α → Nat) : List α → Nat → List α
  | [], _ => []
  | y :: ys, i => if f y = i then ys else y :: removeById f ys i

/-- GET /api/tasks/:id — Task.findOne({_id, user: req.user._id}), 404 when
absent under that combined filter. -/
def tasksGetById (u : User) (tid : Nat) (tasks : List Task) : Resp :=
  match tasks.find? (fun t => t.id == tid && t.user == u.id) with
  | none =>
      (404, .errBody "Task not found"
        "The requested task does not exist or you do not have permission to access it")
  | some t => (200, .taskBody t)

/-- PUT /api/tasks/:id — validation, combined-filter findOne, forEach
assignment of every body key, save. -/
def tasksPut (u : User) (tid : Nat) (b : ReqBody) (now : Nat)
    (tasks : List Task) : Resp × List Task :=
  if !(validTaskUpdate b) then
    ((400, .errBody "Validation Error" "errors array"), tasks)
  else
    match tasks.find? (fun t => t.id == tid && t.user == u.id) with
    | none =>
        ((404, .errBody "Task not found"
          "The requested task does not exist or you do not have permission to access it"), tasks)
    | some t =>
        let t2 : Task := { applyBody t b with updatedAt := now }
        ((200, .taskBody t2), saveById (fun x => x.id) tasks t2)

/-- DELETE /api/tasks/:id — combined-filter findOne then deleteOne; the
success body is {error: message}. -/
def tasksDelete (u : User) (tid : Nat) (tasks : List Task) : Resp × List Task :=
  match tasks.find? (fun t => t.id == tid && t.user == u.id) with
  | none =>
      ((404, .errBody "Task not found"
        "The requested task does not exist or you do not have permission to access it"), tasks)
  | some t =>
      ((200, .msgBody "Task deleted successfully"), removeById (fun x => x.id) tasks t.id)

/-- The documented create-body fields of POST /api/tasks (a body-supplied
user key would be overwritten by the spread order in the handler). -/
structure TaskCreateBody where
  title : String
  description : Option String
  status : Option String
  priority : Option String
  dueDate : Option Nat
deriving Repr, DecidableEq

/-- Optional isIn check over an optional field. -/
def optIn (o : Option String) (vals : List String) : Bool :=
  match o with
  | none => true
  | some s => vals.contains s

/-- Validator chain of POST /api/tasks. -/
def validTaskCreate (b : TaskCreateBody) : Bool :=
  !(trimStr b.title == "") && optIn b.status taskStatusVals && optIn b.priority taskPriorityVals

/-- new Task({...req.body, user: req.user._id}) with generated id and
timestamps. -/
def mkTask (u : User) (b : TaskCreateBody) (newId now : Nat) : Task :=
  { id := newId, title := trimStr b.title, description := b.description,
    status := b.status, priority := b.priority, dueDate := b.dueDate,
    user := u.id, createdAt := now, updatedAt := now }

/-- POST /api/tasks — validate, construct, save, 201 with the document. -/
def tasksCreate (u : User) (b : TaskCreateBody) (newId now : Nat)
    (tasks : List Task) : Resp × List Task :=
  if !(validTaskCreate b) then
    ((400, .errBody "Validation Error" "errors array"), tasks)
  else
    ((201, .taskBody (mkTask u b newId now)), tasks ++ [mkTask u b newId now])

/-- Validator chain of PUT /api/categories/:id: name optional trim notEmpty,
description optional trim. -/
def validCatUpdate (b : ReqBody) : Bool :=
  fieldOk b "name" (strPred (fun s => !(trimStr s == "")))

/-- Assignment of one body key onto a category document, the effect of
Object.assign(category, req.body) per key (sanitizers have trimmed name and
description; non-schema keys are dropped at save by strict mode). -/
def Category.setField (c : Category) (k : String) (v : BodyVal) : Category :=
  if k == "name" then match v with | .vstr s => { c with name := trimStr s } | _ => c
  else if k == "description" then match v with | .vstr s => { c with description := some (trimStr s) } | _ => c
  else if k == "user" then match v with | .vnum n => { c with user := n } | _ => c
  else c

/-- Object.assign(category, req.body): assign every body key in order. -/
def applyCatBody (c : Category) (b : ReqBody) : Category :=
  b.foldl (fun acc kv => acc.setField kv.1 kv.2) c

/-- GET /api/categories/:id — Category.findOne({_id, user}), 404 when absent
under that combined filter. -/
def catsGetById (u : User) (cid : Nat) (cats : List Category) : Resp :=
  match cats.find? (fun c => c.id == cid && c.user == u.id) with
  | none =>
      (404, .errBody "Category not found"
        "The specified category does not exist or you do not have access to it")
  | some c => (200, .catBody c)

/-- PUT /api/categories/:id — validation, combined-filter findOne,
Object.assign of the body, save; a save violating the unique user+name
index is reported as the 400 duplicate response. -/
def catsPut (u : User) (cid : Nat) (b : ReqBody) (now : Nat)
    (cats : List Category) : Resp × List Category :=
  if !(validCatUpdate b) then
    ((400, .errBody "Validation Error" "errors array"), cats)
  else
    match cats.find? (fun c => c.id == cid && c.user == u.id) with
    | none =>
        ((404, .errBody "Category not found"
          "The specified category does not exist or you do not have access to it"), cats)
    | some c =>
        let c2 : Category := { applyCatBody c b with updatedAt := now }
        if cats.any (fun x => !(x.id == c2.id) && x.user == c2.user && x.name == c2.name) then
          ((400, .errBody "Category already exists"
            "A category with this name already exists for your account"), cats)
        else
          ((200, .catBody c2), saveById (fun x => x.id) cats c2)

/-- DELETE /api/categories/:id — Category.findOneAndDelete({_id, user});
the success body is {error: message}. -/
def catsDelete (u : User) (cid : Nat) (cats : List Category) : Resp × List Category :=
  match cats.find? (fun c => c.id == cid && c.user == u.id) with
  | none =>
      ((404, .errBody "Category not found"
        "The specified category does not exist or you do not have access to it"), cats)
  | some c =>
      ((200, .msgBody "Category deleted successfully"), removeById (fun x => x.id) cats c.id)

/-- POST /api/comments — validate content and task ref, require the
referenced task to be owned by the requester under a combined filter
(404 otherwise), then save the comment. -/
def commentsCreate (u : User) (content : String) (taskRef : Nat)
    (newId now : Nat) (tasks : List Task) (comments : List Comment) :
    Resp × List Comment :=
  if trimStr content == "" then
    ((400, .errBody "Validation Error" "errors array"), comments)
  else
    match tasks.find? (fun t => t.id == taskRef && t.user == u.id) with
    | none =>
        ((404, .errBody "Task not found"
          "The specified task does not exist or you do not have access to it"), comments)
    | some _ =>
        let c : Comment := { id := newId, content := trimStr content, task := taskRef,
                             user := u.id, createdAt := now, updatedAt := now }
        ((201, .commentBody c), comments ++ [c])

/-- GET /api/comments/:id — Comment.findOne by id alone (404 when absent),
then Task.findOne({_id: comment.task, user: req.user._id}) (403 when
absent).  The populate of the author is not modelled; the body carries the
comment document. -/
def commentsGetById (u : User) (cid : Nat) (tasks : List Task)
    (comments : List Comment) : Resp :=
  match comments.find? (fun c => c.id == cid) with
  | none =>
      (404, .errBody "Comment not found" "The specified comment does not exist")
  | some c =>
      match tasks.find? (fun t => t.id == c.task && t.user == u.id) with
      | none =>
          (403, .errBody "Access denied" "You do not have access to this comment")
      | some _ => (200, .commentBody c)

/-- PUT /api/comments/:id — content required trim notEmpty, findOne by id
alone (404 on absence), author check comment.user = req.user._id (403 on
mismatch), then overwrite content and save. -/
def commentsPut (u : User) (cid : Nat) (content : String) (now : Nat)
    (comments : List Comment) : Resp × List Comment :=
  if trimStr content == "" then
    ((400, .errBody "Validation Error" "errors array"), comments)
  else
    match comments.find? (fun c => c.id == cid) with
    | none =>
        ((404, .errBody "Comment not found" "The specified comment does not exist"), comments)
    | some c =>
        if !(c.user == u.id) then
          ((403, .errBody "Access denied" "You can only update your own comments"), comments)
        else
          let c2 : Comment := { c with content := trimStr content, updatedAt := now }
          ((200, .commentBody c2), saveById (fun x => x.id) comments c2)

/-- DELETE /api/comments/:id — findOne by id alone (404 on absence), author
check (403 on mismatch), then deleteOne; success body is {error: message}. -/
def commentsDelete (u : User) (cid : Nat) (comments : List Comment) :
    Resp × List Comment :=
  match comments.find? (fun c => c.id == cid) with
  | none =>
      ((404, .errBody "Comment not found" "The specified comment does not exist"), comments)
  | some c =>
      if !(c.user == u.id) then
        ((403, .errBody "Access denied" "You can only delete your own comments"), comments)
      else
        ((200, .msgBody "Comment deleted successfully"), removeById (fun x => x.id) comments c.id)

/-- The 7-day expiresIn constant the issuance sites pass to jwt.sign, in
seconds. -/
def sevenDays : Nat := 604800

/-- Process configuration relevant to tokens.  src/tests/setup.js sets
JWT_SECRET and JWT_EXPIRES_IN=1h in the test environment. -/
structure Config where
  jwtSecret : String
  jwtExpiresIn : Nat
deriving Repr, DecidableEq

/-- The test configuration from src/tests/setup.js: secret
test-secret-key-123456789 and JWT_EXPIRES_IN of one hour (3600 s). -/
def testConfig : Config :=
  { jwtSecret := "test-secret-key-123456789", jwtExpiresIn := 3600 }

/-- Shallow model of validator.isEmail used at signup/login: exactly one
@ sign with a nonempty local part and a dotted domain.  Stated over the
character list so that it reduces by computation. -/
def emailOk (s : String) : Bool :=
  match s.data.dropWhile (fun c => !(c == '@')) with
  | [] => false
  | _ :: dom =>
      !((s.data.takeWhile (fun c => !(c == '@'))).isEmpty) &&
      dom.elem '.' && !(dom.elem '@')

/-- Modelled from the spec: the User model (src/models/User.js) is not under
src/; per the spec the password credential is stored as a salted hash by a
pre-save step, never the plaintext.  The hash is modelled as an injective
tagging of the plaintext, with bcrypt.compare as equality of hashes. -/
def hashPassword (s : String) : String := "bcrypt-hash:" ++ s

/-- Signup request body. -/
structure SignupBody where
  email : String
  password : String
  name : String
deriving Repr, DecidableEq

/-- Validator chain of POST /api/users/signup: email isEmail, password at
least 6 characters, name trim notEmpty. -/
def validSignup (b : SignupBody) : Bool :=
  emailOk b.email && decide (6 ≤ b.password.length) && !(trimStr b.name == "")

/-- The user document created by signup. -/
def mkSignupUser (b : SignupBody) (newId : Nat) : User :=
  { id := newId, email := b.email, password := some (hashPassword b.password),
    name := trimStr b.name, githubId := none }

/-- POST /api/users/signup — validate, reject duplicate email with 400 and
no write, else create the user and issue a 7-day token for it. -/
def signup (cfg : Config) (b : SignupBody) (newId now : Nat)
    (users : List User) : Resp × List User :=
  if !(validSignup b) then
    ((400, .errBody "Validation Error" "errors array"), users)
  else
    match users.find? (fun x => x.email == b.email) with
    | some _ =>
        ((400, .errBody "User already exists"
          "An account with this email address already exists"), users)
    | none =>
        let usr := mkSignupUser b newId
        ((201, .authOk "User created successfully"
            (jwtSign usr.id cfg.jwtSecret sevenDays now) usr.id usr.email usr.name),
         users ++ [usr])

/-- POST /api/users/login — find by email, bcrypt-compare the password, 401
on either failure, else issue a 7-day token. -/
def login (cfg : Config) (email password : String) (now : Nat)
    (users : List User) : Resp :=
  if !(emailOk email) then
    (400, .errBody "Validation Error" "errors array")
  else
    match users.find? (fun x => x.email == email) with
    | none =>
        (401, .errBody "Invalid credentials"
          "The email or password you entered is incorrect")
    | some usr =>
        if usr.password == some (hashPassword password) then
          (200, .authOk "Login successful"
            (jwtSign usr.id cfg.jwtSecret sevenDays now) usr.id usr.email usr.name)
        else
          (401, .errBody "Invalid credentials"
            "The email or password you entered is incorrect")

/-- The GitHub profile data the strategy callback consumes. -/
structure GitHubProfile where
  id : String
  username : String
  displayName : String
  emails : List String
deriving Repr, DecidableEq

/-- The user document created on first GitHub login: the profile email when
present and truthy, otherwise username@github.com; displayName falling back
to username; no password credential. -/
def ghNewUser (profile : GitHubProfile) (newId : Nat) : User :=
  { id := newId
    email :=
      match profile.emails.head? with
      | some e => if e == "" then profile.username ++ "@github.com" else e
      | none => profile.username ++ "@github.com"
    password := none
    name := if profile.displayName == "" then profile.username else profile.displayName
    githubId := some profile.id }

/-- The GitHubStrategy verify callback (src/config/passport.js): look up a
user by githubId; create one via ghNewUser only when none exists. -/
def githubVerify (profile : GitHubProfile) (newId : Nat) (users : List User) :
    User × List User :=
  match users.find? (fun x => x.githubId == some profile.id) with
  | some usr => (usr, users)
  | none => (ghNewUser profile newId, users ++ [ghNewUser profile newId])

/-- GET /api/auth/github/callback — run the strategy verify step, then issue
a 7-day token for the resolved user exactly as password login does. -/
def githubCallback (cfg : Config) (profile : GitHubProfile) (newId now : Nat)
    (users : List User) : Resp × List User :=
  let r := githubVerify profile newId users
  ((200, .authOk "Authentication successful"
      (jwtSign r.1.id cfg.jwtSecret sevenDays now) r.1.id r.1.email r.1.name),
   r.2)

/-- A findOne filtered on both the document id and the owner id returns
nothing exactly when every stored document with that id has another owner;
this covers the missing-resource and foreign-owner cases uniformly. -/
theorem find_owner_none {α : Type} (f g : α → Nat) (l : List α) (i j : Nat)
    (h : ∀ x ∈ l, f x = i → g x ≠ j) :
    l.find? (fun x => f x == i && g x == j) = none := by
  rw [List.find?_eq_none]
  intro x hx
  simp only [Bool.and_eq_true, beq_iff_eq, not_and]
  exact h x hx

/-- A find? over an append skips a first part on which the predicate never
holds. -/
theorem find_skip_left {α : Type} (p : α → Bool) (l m : List α)
    (h : l.find? p = none) : (l ++ m).find? p = m.find? p := by
  rw [List.find?_append, h, Option.none_or]

/-- C1: on every authenticated get-by-id, update or delete of a Task or
Category, the lookup filters on resource id and requester id together, so
whenever no document with that id is owned by the requester — whether the
id is absent or owned by someone else — the handler answers the same 404
response with the store untouched, never 200 and never 403. -/
theorem c1_owner_scoped_lookup_404
    (u : User) (rid now : Nat) (tb cb : ReqBody)
    (tasks : List Task) (cats : List Category)
    (htv : validTaskUpdate tb = true) (hcv : validCatUpdate cb = true)
    (ht : ∀ t ∈ tasks, t.id = rid → t.user ≠ u.id)
    (hc : ∀ c ∈ cats, c.id = rid → c.user ≠ u.id) :
    tasksGetById u rid tasks =
      (404, .errBody "Task not found"
        "The requested task does not exist or you do not have permission to access it") ∧
    tasksPut u rid tb now tasks =
      ((404, .errBody "Task not found"
        "The requested task does not exist or you do not have permission to access it"), tasks) ∧
    tasksDelete u rid tasks =
      ((404, .errBody "Task not found"
        "The requested task does not exist or you do not have permission to access it"), tasks) ∧
    catsGetById u rid cats =
      (404, .errBody "Category not found"
        "The specified category does not exist or you do not have access to it") ∧
    catsPut u rid cb now cats =
      ((404, .errBody "Category not found"
        "The specified category does not exist or you do not have access to it"), cats) ∧
    catsDelete u rid cats =
      ((404, .errBody "Category not found"
        "The specified category does not exist or you do not have access to it"), cats) := by
  have hfT : tasks.find? (fun t => t.id == rid && t.user == u.id) = none :=
    find_owner_none _ _ _ _ _ ht
  have hfC : cats.find? (fun c => c.id == rid && c.user == u.id) = none :=
    find_owner_none _ _ _ _ _ hc
  refine ⟨?_, ?_, ?_, ?_, ?_, ?_⟩ <;>
    simp [tasksGetById, tasksPut, tasksDelete, catsGetById, catsPut, catsDelete,
      hfT, hfC, htv, hcv]

/-- Witness for C1 at a concrete store: the only task and category with the
requested id belong to user 2, the requester is user 1. -/
theorem c1_owner_scoped_lookup_404_witness :
    tasksGetById ⟨1, "a@x.com", none, "A", none⟩ 9
        [⟨9, "t", none, none, none, none, 2, 0, 0⟩] =
      (404, .errBody "Task not found"
        "The requested task does not exist or you do not have permission to access it") ∧
    tasksPut ⟨1, "a@x.com", none, "A", none⟩ 9 [] 5
        [⟨9, "t", none, none, none, none, 2, 0, 0⟩] =
      ((404, .errBody "Task not found"
        "The requested task does not exist or you do not have permission to access it"),
       [⟨9, "t", none, none, none, none, 2, 0, 0⟩]) ∧
    tasksDelete ⟨1, "a@x.com", none, "A", none⟩ 9
        [⟨9, "t", none, none, none, none, 2, 0, 0⟩] =
      ((404, .errBody "Task not found"
        "The requested task does not exist or you do not have permission to access it"),
       [⟨9, "t", none, none, none, none, 2, 0, 0⟩]) ∧
    catsGetById ⟨1, "a@x.com", none, "A", none⟩ 9 [⟨9, "c", none, 2, 0, 0⟩] =
      (404, .errBody "Category not found"
        "The specified category does not exist or you do not have access to it") ∧
    catsPut ⟨1, "a@x.com", none, "A", none⟩ 9 [] 5 [⟨9, "c", none, 2, 0, 0⟩] =
      ((404, .errBody "Category not found"
        "The specified category does not exist or you do not have access to it"),
       [⟨9, "c", none, 2, 0, 0⟩]) ∧
    catsDelete ⟨1, "a@x.com", none, "A", none⟩ 9 [⟨9, "c", none, 2, 0, 0⟩] =
      ((404, .errBody "Category not found"
        "The specified category does not exist or you do not have access to it"),
       [⟨9, "c", none, 2, 0, 0⟩]) :=
  c1_owner_scoped_lookup_404 ⟨1, "a@x.com", none, "A", none⟩ 9 5 [] []
    [⟨9, "t", none, none, none, none, 2, 0, 0⟩] [⟨9, "c", none, 2, 0, 0⟩]
    rfl rfl (by decide) (by decide)

/-- C4: when the bearer token verifies but its subject id matches no stored
user, the gate answers 401 and the wrapped handler never runs — the result
is the same fixed rejection for every handler and the resource state is
untouched; moreover the gate leaves the user store unchanged in every
branch. -/
theorem c4_gate_subject_gone_401 {σ : Type} (t : Token) (secret : String)
    (now uid : Nat) (users : List User) (s : σ)
    (hver : jwtVerify t secret now = some uid)
    (hmiss : users.find? (fun x => x.id == uid) = none) :
    (∀ handler : User → σ → Resp × σ,
        protectedRoute handler (some t) secret now users s =
          ((401, .errBody "User not found"
            "The user associated with this token no longer exists"), users, s)) ∧
    (∀ (header : Option Token) (now2 : Nat) (us : List User),
        (authGate header secret now2 us).2 = us) := by
  constructor
  · intro handler
    simp [protectedRoute, authGate, hver, hmiss]
  · intro header now2 us
    cases header with
    | none => rfl
    | some tk =>
        cases h1 : jwtVerify tk secret now2 with
        | none => simp [authGate, h1]
        | some uid2 =>
            cases h2 : us.find? (fun x => x.id == uid2) with
            | none => simp [authGate, h1, h2]
            | some u => simp [authGate, h1, h2]

/-- Witness for C4: a token signed with the right secret and unexpired,
whose subject 7 is absent from an empty user store. -/
theorem c4_gate_subject_gone_401_witness :
    protectedRoute (fun _ (n : Nat) => ((200, RespBody.msgBody "ok"), n))
        (some ⟨7, 0, 10, "s"⟩) "s" 0 [] 0 =
      ((401, .errBody "User not found"
        "The user associated with this token no longer exists"), [], 0) ∧
    (authGate (some ⟨7, 0, 10, "s"⟩) "s" 0 []).2 = [] :=
  ⟨(c4_gate_subject_gone_401 ⟨7, 0, 10, "s"⟩ "s" 0 7 [] 0 (by decide) rfl).1 _,
   (c4_gate_subject_gone_401 ⟨7, 0, 10, "s"⟩ "s" 0 7 [] 0 (by decide) rfl).2
     (some ⟨7, 0, 10, "s"⟩) 0 []⟩

/-- C2: an authenticated comment update or delete by id answers 404 when no
comment with that id exists, and 403 with the comment store untouched when
the comment exists but its author differs from the requester; existence is
decided before authorship, so the two failures are distinguishable. -/
theorem c2_comment_404_then_403
    (u : User) (cid now : Nat) (content : String) (comments : List Comment)
    (hv : ¬ trimStr content = "") :
    (comments.find? (fun c => c.id == cid) = none →
        commentsPut u cid content now comments =
          ((404, .errBody "Comment not found" "The specified comment does not exist"),
           comments) ∧
        commentsDelete u cid comments =
          ((404, .errBody "Comment not found" "The specified comment does not exist"),
           comments)) ∧
    (∀ c, comments.find? (fun x => x.id == cid) = some c → c.user ≠ u.id →
        commentsPut u cid content now comments =
          ((403, .errBody "Access denied" "You can only update your own comments"),
           comments) ∧
        commentsDelete u cid comments =
          ((403, .errBody "Access denied" "You can only delete your own comments"),
           comments)) := by
  constructor
  · intro hnone
    constructor <;> simp [commentsPut, commentsDelete, hnone, hv]
  · intro c hsome hne
    constructor <;> simp [commentsPut, commentsDelete, hsome, hv, hne]

/-- Witness for C2: comment 5 is absent from the empty store and, in the
singleton store, authored by user 1 while the requester is user 2. -/
theorem c2_comment_404_then_403_witness :
    commentsPut ⟨2, "b@x.com", none, "B", none⟩ 5 "hello" 3 [] =
      ((404, .errBody "Comment not found" "The specified comment does not exist"), []) ∧
    commentsDelete ⟨2, "b@x.com", none, "B", none⟩ 5 [⟨5, "hi", 1, 1, 0, 0⟩] =
      ((403, .errBody "Access denied" "You can only delete your own comments"),
       [⟨5, "hi", 1, 1, 0, 0⟩]) :=
  ⟨((c2_comment_404_then_403 ⟨2, "b@x.com", none, "B", none⟩ 5 3 "hello" []
      (by decide)).1 rfl).1,
   ((c2_comment_404_then_403 ⟨2, "b@x.com", none, "B", none⟩ 5 3 "hello"
      [⟨5, "hi", 1, 1, 0, 0⟩] (by decide)).2 ⟨5, "hi", 1, 1, 0, 0⟩ rfl
      (by decide)).2⟩

/-- C3 as stated is false on the code: the 403 check of GET /api/comments/:id
is parent-task ownership, not comment authorship.  In this store task 1 is
owned by user 2 while comment 5 on task 1 was authored by user 1; user 2
reads comment 5 and receives 200, not the 403 the claim requires for a
comment authored by a different user.  Such a store is reachable: the task
PUT handler assigns a body-supplied user key onto the task, reassigning its
owner after the comment was created. -/
theorem c3_counterexample :
    commentsGetById ⟨2, "b@x.com", none, "B", none⟩ 5
        [⟨1, "t", none, none, none, none, 2, 0, 0⟩] [⟨5, "hi", 1, 1, 0, 0⟩] =
      (200, .commentBody ⟨5, "hi", 1, 1, 0, 0⟩) ∧
    (⟨5, "hi", 1, 1, 0, 0⟩ : Comment).user ≠
      (⟨2, "b@x.com", none, "B", none⟩ : User).id := by
  refine ⟨rfl, by decide⟩

/-- C3 amended: reading a single comment checks existence first (404 when
the id is absent); the second check is ownership of the parent task under a
combined task-id/requester filter (403 when that lookup is empty), which
coincides with comment authorship whenever every stored task with the
comment's task id is owned by the comment's author — the invariant comment
creation establishes. -/
theorem c3_comment_read_task_scoped
    (u : User) (cid : Nat) (tasks : List Task) (comments : List Comment) :
    (comments.find? (fun c => c.id == cid) = none →
        commentsGetById u cid tasks comments =
          (404, .errBody "Comment not found" "The specified comment does not exist")) ∧
    (∀ c, comments.find? (fun x => x.id == cid) = some c →
        tasks.find? (fun t => t.id == c.task && t.user == u.id) = none →
        commentsGetById u cid tasks comments =
          (403, .errBody "Access denied" "You do not have access to this comment")) ∧
    (∀ c, comments.find? (fun x => x.id == cid) = some c → c.user ≠ u.id →
        (∀ t ∈ tasks, t.id = c.task → t.user = c.user) →
        commentsGetById u cid tasks comments =
          (403, .errBody "Access denied" "You do not have access to this comment")) := by
  refine ⟨?_, ?_, ?_⟩
  · intro hnone
    simp [commentsGetById, hnone]
  · intro c hsome htask
    simp [commentsGetById, hsome, htask]
  · intro c hsome hne hinv
    have htask : tasks.find? (fun t => t.id == c.task && t.user == u.id) = none :=
      find_owner_none _ _ _ _ _ (fun t ht hid => by
        rw [hinv t ht hid]; exact hne)
    simp [commentsGetById, hsome, htask]

/-- Witness for C3 amended: comment 5 on task 1, both owned by user 1,
read by user 2 — absent id gives 404, wrong author gives 403. -/
theorem c3_comment_read_task_scoped_witness :
    commentsGetById ⟨2, "b@x.com", none, "B", none⟩ 5
        [⟨1, "t", none, none, none, none, 1, 0, 0⟩] [] =
      (404, .errBody "Comment not found" "The specified comment does not exist") ∧
    commentsGetById ⟨2, "b@x.com", none, "B", none⟩ 5
        [⟨1, "t", none, none, none, none, 1, 0, 0⟩] [⟨5, "hi", 1, 1, 0, 0⟩] =
      (403, .errBody "Access denied" "You do not have access to this comment") :=
  ⟨(c3_comment_read_task_scoped ⟨2, "b@x.com", none, "B", none⟩ 5
      [⟨1, "t", none, none, none, none, 1, 0, 0⟩] []).1 rfl,
   ((c3_comment_read_task_scoped ⟨2, "b@x.com", none, "B", none⟩ 5
      [⟨1, "t", none, none, none, none, 1, 0, 0⟩] [⟨5, "hi", 1, 1, 0, 0⟩]).2.2
      ⟨5, "hi", 1, 1, 0, 0⟩ rfl (by decide) (by decide))⟩

/-- C5 as stated is false on the code: every issuance site passes the 7-day
constant to jwt.sign and never reads the configured window, so under the
test configuration (JWT_EXPIRES_IN of one hour) a signup token still
encodes expiry 604800 seconds after issuance, not the configured 3600. -/
theorem c5_counterexample :
    testConfig.jwtExpiresIn = 3600 ∧
    (signup testConfig ⟨"a@x.com", "password123", "A"⟩ 1 0 []).1 =
      (201, .authOk "User created successfully"
        ⟨1, 0, 604800, "test-secret-key-123456789"⟩ 1 "a@x.com" "A") ∧
    (604800 : Nat) ≠ 0 + testConfig.jwtExpiresIn := by
  refine ⟨rfl, by decide, by decide⟩

/-- C5 amended: every issuance site — signup, login and the OAuth callback —
signs a token whose encoded expiry is issuance time plus a hard-coded
7-day window (604800 s); the configured JWT_EXPIRES_IN is never consulted.
-/
theorem c5_expiry_hardcoded
    (cfg : Config) (b : SignupBody) (newId now nowL : Nat)
    (users usersL : List User) (email password : String) (profile : GitHubProfile)
    (hv : validSignup b = true)
    (hfresh : users.find? (fun x => x.email == b.email) = none) :
    (∃ tk i e n, (signup cfg b newId now users).1 =
        (201, .authOk "User created successfully" tk i e n) ∧
        tk.exp = now + 604800 ∧ tk.iat = now) ∧
    (∀ usr, usersL.find? (fun x => x.email == email) = some usr →
        usr.password = some (hashPassword password) → emailOk email = true →
        ∃ tk i e n, login cfg email password nowL usersL =
          (200, .authOk "Login successful" tk i e n) ∧ tk.exp = nowL + 604800) ∧
    (∃ tk i e n, (githubCallback cfg profile newId now users).1 =
        (200, .authOk "Authentication successful" tk i e n) ∧
        tk.exp = now + 604800) := by
  refine ⟨?_, ?_, ?_⟩
  · refine ⟨jwtSign newId cfg.jwtSecret sevenDays now, newId, b.email, trimStr b.name, ?_, rfl, rfl⟩
    simp [signup, hv, hfresh, mkSignupUser]
  · intro usr hfind hpw hem
    refine ⟨jwtSign usr.id cfg.jwtSecret sevenDays nowL, usr.id, usr.email, usr.name, ?_, rfl⟩
    simp [login, hem, hfind, hpw]
  · exact ⟨_, _, _, _, rfl, rfl⟩

/-- Witness for C5 amended: user a@x.com signs up at time 10 into an empty
store; their login at time 20 and a GitHub callback at time 10 all carry
tokens expiring exactly 604800 seconds later. -/
theorem c5_expiry_hardcoded_witness :
    (∃ tk i e n, (signup ⟨"secret", 3600⟩ ⟨"a@x.com", "password123", "A"⟩ 1 10 []).1 =
        (201, .authOk "User created successfully" tk i e n) ∧
        tk.exp = 10 + 604800 ∧ tk.iat = 10) ∧
    (∃ tk i e n, login ⟨"secret", 3600⟩ "a@x.com" "password123" 20
          [⟨1, "a@x.com", some (hashPassword "password123"), "A", none⟩] =
        (200, .authOk "Login successful" tk i e n) ∧ tk.exp = 20 + 604800) ∧
    (∃ tk i e n, (githubCallback ⟨"secret", 3600⟩ ⟨"77", "octo", "", []⟩ 1 10 []).1 =
        (200, .authOk "Authentication successful" tk i e n) ∧
        tk.exp = 10 + 604800) := by
  have h := c5_expiry_hardcoded ⟨"secret", 3600⟩ ⟨"a@x.com", "password123", "A"⟩
    1 10 20 [] [⟨1, "a@x.com", some (hashPassword "password123"), "A", none⟩]
    "a@x.com" "password123" ⟨"77", "octo", "", []⟩ (by decide) rfl
  exact ⟨h.1,
    h.2.1 ⟨1, "a@x.com", some (hashPassword "password123"), "A", none⟩
      (by decide) rfl (by decide),
    h.2.2⟩

/-- C6: a signup whose email already belongs to a stored user answers 400
with the user store unchanged, so no second identity with that email is
created; a signup with a fresh valid email answers 201, appends exactly the
one new user, and the issued token's subject is that new user's id. -/
theorem c6_signup_duplicate_vs_fresh
    (cfg : Config) (b : SignupBody) (newId now : Nat) (users : List User)
    (hv : validSignup b = true) :
    (∀ w, users.find? (fun x => x.email == b.email) = some w →
        signup cfg b newId now users =
          ((400, .errBody "User already exists"
            "An account with this email address already exists"), users)) ∧
    (users.find? (fun x => x.email == b.email) = none →
        signup cfg b newId now users =
          ((201, .authOk "User created successfully"
              (jwtSign newId cfg.jwtSecret sevenDays now) newId b.email (trimStr b.name)),
           users ++ [mkSignupUser b newId]) ∧
        (jwtSign newId cfg.jwtSecret sevenDays now).userId = newId ∧
        (mkSignupUser b newId).id = newId ∧
        (mkSignupUser b newId).email = b.email) := by
  constructor
  · intro w hdup
    simp [signup, hv, hdup]
  · intro hfresh
    refine ⟨?_, rfl, rfl, rfl⟩
    simp [signup, hv, hfresh, mkSignupUser]

/-- Witness for C6: signing up a@x.com twice — the store that already holds
the email answers 400 unchanged; the empty store answers 201 with a token
for the new user id 1. -/
theorem c6_signup_duplicate_vs_fresh_witness :
    signup ⟨"secret", 3600⟩ ⟨"a@x.com", "password123", "A"⟩ 2 10
        [⟨1, "a@x.com", some (hashPassword "pw1234"), "Z", none⟩] =
      ((400, .errBody "User already exists"
        "An account with this email address already exists"),
       [⟨1, "a@x.com", some (hashPassword "pw1234"), "Z", none⟩]) ∧
    signup ⟨"secret", 3600⟩ ⟨"a@x.com", "password123", "A"⟩ 1 10 [] =
      ((201, .authOk "User created successfully"
          (jwtSign 1 "secret" sevenDays 10) 1 "a@x.com" "A"),
       [mkSignupUser ⟨"a@x.com", "password123", "A"⟩ 1]) :=
  ⟨(c6_signup_duplicate_vs_fresh ⟨"secret", 3600⟩ ⟨"a@x.com", "password123", "A"⟩
      2 10 [⟨1, "a@x.com", some (hashPassword "pw1234"), "Z", none⟩]
      (by decide)).1 ⟨1, "a@x.com", some (hashPassword "pw1234"), "Z", none⟩ rfl,
   ((c6_signup_duplicate_vs_fresh ⟨"secret", 3600⟩ ⟨"a@x.com", "password123", "A"⟩
      1 10 [] (by decide)).2 rfl).1⟩

/-- C7: the GitHub verify callback looks a user up by githubId; when one
exists it is returned with the store untouched, otherwise exactly one user
is created carrying the first profile email — or username@github.com when
none or an empty one is supplied — and no password credential; a repeated
login with the same profile then finds that user and changes nothing. -/
theorem c7_github_login_idempotent
    (profile : GitHubProfile) (newId newId2 : Nat) (users : List User) :
    (∀ w, users.find? (fun x => x.githubId == some profile.id) = some w →
        githubVerify profile newId users = (w, users)) ∧
    (users.find? (fun x => x.githubId == some profile.id) = none →
        githubVerify profile newId users =
          (ghNewUser profile newId, users ++ [ghNewUser profile newId]) ∧
        (ghNewUser profile newId).password = none ∧
        (∀ e es, profile.emails = e :: es → e ≠ "" →
            (ghNewUser profile newId).email = e) ∧
        (profile.emails = [] →
            (ghNewUser profile newId).email = profile.username ++ "@github.com") ∧
        githubVerify profile newId2 (users ++ [ghNewUser profile newId]) =
          (ghNewUser profile newId, users ++ [ghNewUser profile newId])) := by
  constructor
  · intro w hfound
    simp [githubVerify, hfound]
  · intro hnone
    refine ⟨by simp [githubVerify, hnone], rfl, ?_, ?_, ?_⟩
    · intro e es he hne
      simp [ghNewUser, he, hne]
    · intro he
      simp [ghNewUser, he]
    · have hstep : (users ++ [ghNewUser profile newId]).find?
          (fun x => x.githubId == some profile.id) = some (ghNewUser profile newId) := by
        rw [find_skip_left _ _ _ hnone]
        simp [ghNewUser]
      simp [githubVerify, hstep]

/-- Witness for C7: first GitHub login of profile 77 creates the one user;
the repeat run finds it and leaves the store alone. -/
theorem c7_github_login_idempotent_witness :
    githubVerify ⟨"77", "octo", "Octo Cat", ["o@x.com"]⟩ 1 [] =
      (ghNewUser ⟨"77", "octo", "Octo Cat", ["o@x.com"]⟩ 1,
       [ghNewUser ⟨"77", "octo", "Octo Cat", ["o@x.com"]⟩ 1]) ∧
    (ghNewUser ⟨"77", "octo", "Octo Cat", ["o@x.com"]⟩ 1).password = none ∧
    (ghNewUser ⟨"77", "octo", "Octo Cat", ["o@x.com"]⟩ 1).email = "o@x.com" ∧
    githubVerify ⟨"77", "octo", "Octo Cat", ["o@x.com"]⟩ 2
        [ghNewUser ⟨"77", "octo", "Octo Cat", ["o@x.com"]⟩ 1] =
      (ghNewUser ⟨"77", "octo", "Octo Cat", ["o@x.com"]⟩ 1,
       [ghNewUser ⟨"77", "octo", "Octo Cat", ["o@x.com"]⟩ 1]) := by
  have h := (c7_github_login_idempotent ⟨"77", "octo", "Octo Cat", ["o@x.com"]⟩
    1 2 []).2 rfl
  exact ⟨h.1, h.2.1, h.2.2.1 "o@x.com" [] rfl (by decide),
    by simpa using h.2.2.2.2⟩

/-- C8: creating a task and immediately fetching it by id as the owner
returns 200 with exactly the created document, whose fields are the
submitted ones (title as sanitized) plus the generated id and timestamps. -/
theorem c8_create_then_get_roundtrip
    (u : User) (b : TaskCreateBody) (tasks : List Task) (newId now : Nat)
    (hv : validTaskCreate b = true)
    (hfresh : ∀ t ∈ tasks, t.id ≠ newId) :
    tasksCreate u b newId now tasks =
      ((201, .taskBody (mkTask u b newId now)), tasks ++ [mkTask u b newId now]) ∧
    tasksGetById u newId (tasks ++ [mkTask u b newId now]) =
      (200, .taskBody (mkTask u b newId now)) ∧
    (mkTask u b newId now).title = trimStr b.title ∧
    (mkTask u b newId now).description = b.description ∧
    (mkTask u b newId now).status = b.status ∧
    (mkTask u b newId now).priority = b.priority ∧
    (mkTask u b newId now).dueDate = b.dueDate ∧
    (mkTask u b newId now).id = newId ∧
    (mkTask u b newId now).user = u.id ∧
    (mkTask u b newId now).createdAt = now ∧
    (mkTask u b newId now).updatedAt = now := by
  refine ⟨by simp [tasksCreate, hv], ?_, rfl, rfl, rfl, rfl, rfl, rfl, rfl, rfl, rfl⟩
  have hnone : tasks.find? (fun t => t.id == newId && t.user == u.id) = none := by
    rw [List.find?_eq_none]
    intro x hx
    simp only [Bool.and_eq_true, beq_iff_eq, not_and]
    exact fun hid _ => hfresh x hx hid
  have hfind : (tasks ++ [mkTask u b newId now]).find?
      (fun t => t.id == newId && t.user == u.id) = some (mkTask u b newId now) := by
    rw [find_skip_left _ _ _ hnone]
    simp [mkTask]
  simp [tasksGetById, hfind]

/-- Witness for C8: user 1 creates task 3 in an empty store and reads it
back unchanged. -/
theorem c8_create_then_get_roundtrip_witness :
    tasksCreate ⟨1, "a@x.com", none, "A", none⟩
        ⟨"Buy milk", some "2l", some "pending", some "high", none⟩ 3 7 [] =
      ((201, .taskBody (mkTask ⟨1, "a@x.com", none, "A", none⟩
          ⟨"Buy milk", some "2l", some "pending", some "high", none⟩ 3 7)),
       [mkTask ⟨1, "a@x.com", none, "A", none⟩
          ⟨"Buy milk", some "2l", some "pending", some "high", none⟩ 3 7]) ∧
    tasksGetById ⟨1, "a@x.com", none, "A", none⟩ 3
        [mkTask ⟨1, "a@x.com", none, "A", none⟩
          ⟨"Buy milk", some "2l", some "pending", some "high", none⟩ 3 7] =
      (200, .taskBody (mkTask ⟨1, "a@x.com", none, "A", none⟩
          ⟨"Buy milk", some "2l", some "pending", some "high", none⟩ 3 7)) := by
  have h := c8_create_then_get_roundtrip ⟨1, "a@x.com", none, "A", none⟩
    ⟨"Buy milk", some "2l", some "pending", some "high", none⟩ [] 3 7
    (by decide) (by decide)
  exact ⟨by simpa using h.1, h.2.1⟩

/-- C9: a successful owner delete of a task, category or comment answers
status 200 with the human-readable success message carried in the error
field of the body. -/
theorem c9_delete_success_message_in_error_field
    (u : User) (rid : Nat) (tasks : List Task) (cats : List Category)
    (comments : List Comment) (t : Task) (c : Category) (cm : Comment)
    (ht : tasks.find? (fun x => x.id == rid && x.user == u.id) = some t)
    (hc : cats.find? (fun x => x.id == rid && x.user == u.id) = some c)
    (hm : comments.find? (fun x => x.id == rid) = some cm)
    (hmu : cm.user = u.id) :
    (tasksDelete u rid tasks).1 = (200, .msgBody "Task deleted successfully") ∧
    (catsDelete u rid cats).1 = (200, .msgBody "Category deleted successfully") ∧
    (commentsDelete u rid comments).1 =
      (200, .msgBody "Comment deleted successfully") := by
  refine ⟨?_, ?_, ?_⟩
  · simp [tasksDelete, ht]
  · simp [catsDelete, hc]
  · simp [commentsDelete, hm, hmu]

/-- Witness for C9: user 1 deletes their own task, category and comment,
each with id 4. -/
theorem c9_delete_success_message_in_error_field_witness :
    (tasksDelete ⟨1, "a@x.com", none, "A", none⟩ 4
        [⟨4, "t", none, none, none, none, 1, 0, 0⟩]).1 =
      (200, .msgBody "Task deleted successfully") ∧
    (catsDelete ⟨1, "a@x.com", none, "A", none⟩ 4 [⟨4, "c", none, 1, 0, 0⟩]).1 =
      (200, .msgBody "Category deleted successfully") ∧
    (commentsDelete ⟨1, "a@x.com", none, "A", none⟩ 4 [⟨4, "hi", 9, 1, 0, 0⟩]).1 =
      (200, .msgBody "Comment deleted successfully") :=
  c9_delete_success_message_in_error_field ⟨1, "a@x.com", none, "A", none⟩ 4
    [⟨4, "t", none, none, none, none, 1, 0, 0⟩] [⟨4, "c", none, 1, 0, 0⟩]
    [⟨4, "hi", 9, 1, 0, 0⟩] ⟨4, "t", none, none, none, none, 1, 0, 0⟩
    ⟨4, "c", none, 1, 0, 0⟩ ⟨4, "hi", 9, 1, 0, 0⟩ rfl rfl rfl rfl

/-- C10: the task update handler assigns every key of the request body onto
the stored document, so a body consisting of a user key — which passes the
validator chain, whose checks cover only the documented fields — rewrites
the task's owner reference to an arbitrary value and is saved. -/
theorem c10_update_reassigns_owner
    (u : User) (tid now w : Nat) (tasks : List Task) (t : Task)
    (ht : tasks.find? (fun x => x.id == tid && x.user == u.id) = some t) :
    tasksPut u tid [("user", BodyVal.vnum w)] now tasks =
      ((200, .taskBody { t with user := w, updatedAt := now }),
       saveById (fun x => x.id) tasks { t with user := w, updatedAt := now }) ∧
    validTaskUpdate [("user", BodyVal.vnum w)] = true ∧
    ({ t with user := w, updatedAt := now } : Task).user = w := by
  have happ : applyBody t [("user", BodyVal.vnum w)] = { t with user := w } := rfl
  have hval : validTaskUpdate [("user", BodyVal.vnum w)] = true := by rfl
  refine ⟨?_, hval, rfl⟩
  simp [tasksPut, ht, happ, hval]

/-- Witness for C10: user 1 owns task 2 and a PUT whose body is only a user
key hands the task to user 9. -/
theorem c10_update_reassigns_owner_witness :
    tasksPut ⟨1, "a@x.com", none, "A", none⟩ 2 [("user", BodyVal.vnum 9)] 5
        [⟨2, "t", none, none, none, none, 1, 0, 0⟩] =
      ((200, .taskBody ⟨2, "t", none, none, none, none, 9, 0, 5⟩),
       [⟨2, "t", none, none, none, none, 9, 0, 5⟩]) := by
  have h := (c10_update_reassigns_owner ⟨1, "a@x.com", none, "A", none⟩ 2 5 9
    [⟨2, "t", none, none, none, none, 1, 0, 0⟩]
    ⟨2, "t", none, none, none, none, 1, 0, 0⟩ rfl).1
  simpa [saveById] using h

end TM
